import Mathlib

/-!
Verification of the Conversational Turn Orchestrator of the stop-smoking
backend, as a shallow embedding of the Python source.

Embedded source files:
  app/api/v1/routers/chat.py   (content policy filter, snapshot builder, event generator)
  app/services/ai/custom_agent.py (state machine: context node, agent node, should_continue)
  app/utils/ai.py              (_iter_tool_calls, _extract_text, _event)
  app/core/health.py           (health index calculators)

Python dictionaries whose key set is fixed by the program are modelled as
structures of Option fields (a key present with a non-None value is `some`,
an absent key or a None value is `none`; the two are indistinguishable under
the dict.get access pattern the source uses).  Python float arithmetic in
app/core/health.py is idealized as real arithmetic.
-/

/-- Message role tag, mirroring langchain message `type` strings. -/
inductive Role
  | system
  | human
  | ai
  | tool
deriving DecidableEq, Repr

/-- The `type` attribute string of a message (langchain message types). -/
def Role.typeName : Role → String
  | .system => "system"
  | .human => "human"
  | .ai => "ai"
  | .tool => "tool"

/-- One tool-call request attached to an assistant message.  `name` and `args`
mirror `tc.get("name")` and `tc.get("args")`, either of which may be absent. -/
structure ToolCall where
  name : Option String
  args : Option (List (String × String))
deriving DecidableEq, Repr

/-- A conversation message: role tag, textual content, tool-call requests. -/
structure Message where
  role : Role
  content : String
  tool_calls : List ToolCall := []
deriving DecidableEq, Repr

/-- Client-facing output events emitted by the chat stream
(app/api/v1/routers/chat.py, events documented on `chat_stream`). -/
inductive Event
  | token (text : String)
  | tool_call (tool : String) (args : List (String × String))
  | tool_result (tool : String) (content : String)
  | error (message : String)
deriving DecidableEq, Repr

def Event.isToken : Event → Bool
  | .token _ => true
  | _ => false

def Event.isToolCall : Event → Bool
  | .tool_call _ _ => true
  | _ => false

def Event.isToolResult : Event → Bool
  | .tool_result _ _ => true
  | _ => false

def Event.isError : Event → Bool
  | .error _ => true
  | _ => false

/-- The `tool` field of a `tool_call` or `tool_result` event, if any. -/
def Event.toolField : Event → Option String
  | .tool_call t _ => some t
  | .tool_result t _ => some t
  | _ => none

/-- Text carried by a `token` event. -/
def Event.tokenText : Event → Option String
  | .token t => some t
  | _ => none

/-- `pat` occurs as a contiguous substring of the character list (Python
`pat in s`). -/
def subOf (pat : List Char) : List Char → Bool
  | [] => pat.isEmpty
  | c :: t => pat.isPrefixOf (c :: t) || subOf pat t

/-- Python `s.lower().strip()` as a character list (the inputs the program
feeds it are ASCII, where Char.toLower agrees with str.lower). -/
def pyLowerStrip (s : String) : List Char :=
  ((((s.data.map Char.toLower).dropWhile Char.isWhitespace).reverse).dropWhile
      Char.isWhitespace).reverse

/-- Helper of `pySplit`: accumulate the current word (reversed) while
scanning the characters. -/
def splitWordsAux : List Char → List Char → List String
  | [], acc => if acc.isEmpty then [] else [String.mk acc.reverse]
  | c :: t, acc =>
    if c.isWhitespace then
      (if acc.isEmpty then [] else [String.mk acc.reverse]) ++ splitWordsAux t []
    else
      splitWordsAux t (c :: acc)

/-- Python `s.split()`: split on whitespace runs, dropping empty pieces. -/
def pySplit (s : String) : List String :=
  splitWordsAux s.data []

/-- Smoking-related allow-list from `_is_non_smoking_question`
(app/api/v1/routers/chat.py, lines 29-36). -/
def smoking_keywords : List String :=
  ["smoke", "smoking", "cigarette", "cigarettes", "tobacco", "nicotine",
   "quit", "quitting", "cessation", "craving", "cravings", "withdrawal",
   "relapse", "relapsed", "diary", "progress", "goal", "goals",
   "health", "lung", "cancer", "heart", "breathing", "addiction",
   "vape", "vaping", "e-cigarette", "hookah", "pipe", "cigar",
   "secondhand", "passive", "smoke-free", "smokefree", "nonsmoker"]

/-- Deny-list of non-smoking topic patterns from `_is_non_smoking_question`
(app/api/v1/routers/chat.py, lines 46-71). -/
def non_smoking_patterns : List String :=
  ["capital of", "what country", "where is", "population of",
   "who invented", "when was", "how to cook", "what is the weather",
   "what is", "who is", "when did", "how many", "how much",
   "how to code", "programming", "python", "javascript", "html",
   "computer", "software", "app", "website", "database",
   "movie", "film", "actor", "actress", "song", "music", "book",
   "game", "sport", "team", "player",
   "physics", "chemistry", "biology", "math", "history", "literature",
   "philosophy", "economics", "politics", "law", "art", "design",
   "relationship", "dating", "marriage", "divorce", "parenting",
   "career", "job", "interview", "resume", "salary",
   "diet", "exercise", "weight loss", "fitness", "yoga", "meditation",
   "sleep", "stress", "anxiety", "depression", "therapy"]

/-- `_is_non_smoking_question` (app/api/v1/routers/chat.py, lines 24-76):
allow-list keyword match wins, otherwise deny-list pattern match refuses. -/
def _is_non_smoking_question (question : String) : Bool :=
  let question_lower := pyLowerStrip question
  let has_smoking_keyword := smoking_keywords.any (fun k => subOf k.data question_lower)
  if has_smoking_keyword then
    false
  else
    non_smoking_patterns.any (fun p => subOf p.data question_lower)

/-- `_get_smoking_refusal_response` (app/api/v1/routers/chat.py, lines 115-117). -/
def _get_smoking_refusal_response : String :=
  "I\x27m sorry, but I can only help with smoking cessation and tobacco-related questions. I cannot answer questions about other topics. Is there anything about quitting smoking or managing tobacco cravings I can help you with instead?"

/-- Generic user-safe error message (app/api/v1/routers/chat.py, line 363). -/
def generic_error_message : String :=
  "An error occurred while processing your request. Please try again."

/-- A goal row converted to a dict by `chat_stream` (chat.py, lines 175-181). -/
structure Goal where
  id : Int
  description : String
  is_completed : Bool
deriving DecidableEq, Repr

/-- A craving row converted to a dict by `chat_stream` (chat.py, lines 229-242). -/
structure Craving where
  id : Int
  date : String
  comments : Option String
  have_smoked : Bool
  desire_range : Int
  number_of_cigarets_smoked : Int
  feeling : Option String
  activity : Option String
  company : Option String
deriving DecidableEq, Repr

/-- A diary row converted to a dict by `chat_stream` (chat.py, lines 244-255). -/
structure DiaryEntry where
  id : Int
  date : String
  notes : Option String
  have_smoked : Bool
  craving_range : Int
  number_of_cravings : Int
  number_of_cigarets_smoked : Int
deriving DecidableEq, Repr

/-- The `conversation_context` dict of the agent state.  Its key set is fixed
by the program: the eight scalar user fields, the three list fields, and the
milestone annotation.  `none` = key absent (or value None). -/
structure Ctx where
  user_id : Option String := none
  quit_date : Option String := none
  days_since_quit : Option Int := none
  quit_reason : Option String := none
  cigarettes_per_day : Option Int := none
  years_smoking : Option Int := none
  cigarette_price : Option Int := none
  language : Option String := none
  goals : Option (List Goal) := none
  recent_cravings : Option (List Craving) := none
  recent_diary_entries : Option (List DiaryEntry) := none
  milestone : Option String := none
deriving DecidableEq, Repr

/-- Python truthiness of the context dict: a dict with no keys is falsy. -/
def Ctx.truthy (c : Ctx) : Bool :=
  c.user_id.isSome || c.quit_date.isSome || c.days_since_quit.isSome ||
  c.quit_reason.isSome || c.cigarettes_per_day.isSome || c.years_smoking.isSome ||
  c.cigarette_price.isSome || c.language.isSome || c.goals.isSome ||
  c.recent_cravings.isSome || c.recent_diary_entries.isSome || c.milestone.isSome

/-- `AgentState` (app/services/ai/custom_agent.py, lines 24-39).
`conversation_context = none` models the key being absent from the state. -/
structure AgentState where
  messages : List Message
  user_id : Option String := none
  quit_date : Option String := none
  days_since_quit : Option Int := none
  quit_reason : Option String := none
  cigarettes_per_day : Option Int := none
  years_smoking : Option Int := none
  cigarette_price : Option Int := none
  language : Option String := none
  goals : Option (List Goal) := none
  recent_cravings : Option (List Craving) := none
  recent_diary_entries : Option (List DiaryEntry) := none
  current_step : String := ""
  conversation_context : Option Ctx := none
deriving DecidableEq, Repr

/-- `if state.get(field) is not None: context[field] = state[field]`
(custom_agent.py, lines 105-107): a scalar merge keeps the state value when
present, else the old context value. -/
def mergeScalar {α : Type} (stateVal oldVal : Option α) : Option α :=
  match stateVal with
  | some v => some v
  | none => oldVal

/-- `if state.get(field):` for a list field (custom_agent.py, lines 111-121):
the state value wins only when it is truthy, i.e. a non-empty list. -/
def mergeListField {α : Type} (stateVal oldVal : Option (List α)) : Option (List α) :=
  match stateVal with
  | some l => if l.isEmpty then oldVal else some l
  | none => oldVal

/-- Milestone strings attached by the context node
(custom_agent.py, lines 128-141). -/
def milestoneFor (days : Int) (old : Option String) : Option String :=
  if days > 0 then
    if days = 1 then some "First day smoke-free! Your body is already healing."
    else if days = 7 then some "One week! The worst of withdrawal is behind you."
    else if days = 30 then some "One month! Your lung function is improving."
    else if days = 90 then some "Three months! Your risk of heart disease is decreasing."
    else if days = 365 then some "One year! Your risk of heart disease is half that of a smoker."
    else old
  else old

/-- The body of the closure returned by `create_context_node`
(custom_agent.py, lines 83-146): force-merge every user field of the state
into the conversation context (scalars on `is not None`, lists on
truthiness), attach a milestone for canonical day counts, and tag the step. -/
def context_node (state : AgentState) : AgentState :=
  let context := state.conversation_context.getD {}
  let merged : Ctx :=
    { user_id := mergeScalar state.user_id context.user_id
      quit_date := mergeScalar state.quit_date context.quit_date
      days_since_quit := mergeScalar state.days_since_quit context.days_since_quit
      quit_reason := mergeScalar state.quit_reason context.quit_reason
      cigarettes_per_day := mergeScalar state.cigarettes_per_day context.cigarettes_per_day
      years_smoking := mergeScalar state.years_smoking context.years_smoking
      cigarette_price := mergeScalar state.cigarette_price context.cigarette_price
      language := mergeScalar state.language context.language
      goals := mergeListField state.goals context.goals
      recent_cravings := mergeListField state.recent_cravings context.recent_cravings
      recent_diary_entries := mergeListField state.recent_diary_entries context.recent_diary_entries
      milestone := context.milestone }
  let days := state.days_since_quit.getD 0
  let withMilestone := { merged with milestone := milestoneFor days merged.milestone }
  { state with
      current_step := "context_enriched"
      conversation_context := some withMilestone }

/-- The reminder message content synthesized for a leading tool message
(custom_agent.py, line 355). -/
def tool_reminder_text : String :=
  "You just received a tool result. Use it to continue the response."

def mkSystemMessage (content : String) : Message :=
  { role := Role.system, content := content }

def mkHumanMessage (content : String) : Message :=
  { role := Role.human, content := content }

/-- `_prepare_model_messages` (custom_agent.py, lines 342-361). -/
def _prepare_model_messages (messages : List Message) (system_message : String) : List Message :=
  match messages with
  | [] => [mkSystemMessage system_message]
  | m0 :: _ =>
    let first_turn : Bool :=
      messages.length == 1 &&
        (m0.role.typeName == "human" || m0.role.typeName == "user")
    let leading_role := m0.role.typeName
    if leading_role = "tool" then
      (if first_turn then [mkSystemMessage system_message] else []) ++
        [mkSystemMessage tool_reminder_text,
         mkHumanMessage ("Tool result:\n" ++ m0.content)]
    else
      if first_turn then mkSystemMessage system_message :: messages else messages

/-- One response produced by the bound model: assistant text plus the
tool-call requests it carries. -/
structure ModelResponse where
  text : String
  tool_calls : List ToolCall := []
deriving DecidableEq, Repr

/-- The AIMessage appended by the agent node for a model response. -/
def aiMessageOf (r : ModelResponse) : Message :=
  { role := Role.ai, content := r.text, tool_calls := r.tool_calls }

/-- The body of the closure returned by `create_agent_node`
(custom_agent.py, lines 369-398), parametrized by the model response:
append the response message, tag the step.  The model input is built with
`_prepare_model_messages` but does not change the state. -/
def agent_node (r : ModelResponse) (state : AgentState) : AgentState :=
  { state with
      messages := state.messages ++ [aiMessageOf r]
      current_step := "agent_response" }

/-- `ToolNode` execution: appends one tool-result message per tool call of
the last message, leaving `current_step` untouched (the prebuilt node does
not write that key).  `exec` is the registered tool implementation table. -/
def tools_node (exec : ToolCall → String) (state : AgentState) : AgentState :=
  let last := (state.messages.getLast?).getD (mkHumanMessage "")
  { state with
      messages :=
        state.messages ++
          last.tool_calls.map (fun tc => { role := Role.tool, content := exec tc }) }

/-- The body of the closure returned by `create_response_formatter`
(custom_agent.py, lines 405-410). -/
def response_formatter (state : AgentState) : AgentState :=
  { state with current_step := "response_formatted" }

/-- `should_continue` (custom_agent.py, lines 414-427).  `messages[-1]` on an
empty list would raise; runs always reach this with a non-empty list, and the
empty case is mapped to the terminal route. -/
def should_continue (state : AgentState) : String :=
  match state.messages.getLast? with
  | none => "end"
  | some last_message =>
    if ¬ last_message.tool_calls.isEmpty then "tools"
    else if (state.conversation_context.map Ctx.truthy).getD false then "format_response"
    else "end"

/-- The stages of the turn state machine visited by a run, in the vocabulary
of the graph built by `create_custom_agent` (custom_agent.py, lines 41-78). -/
inductive Stage
  | context_enriched
  | agent_response
  | tools
  | response_formatted
  | terminal
deriving DecidableEq, Repr

/-- The loop of the compiled graph after the entry node: each iteration runs
the agent node on one model response, then routes through `should_continue`
via the conditional-edge mapping `{tools, format_response, end}`
(custom_agent.py, lines 64-74).  An exhausted response list ends the
observation (the trace so far is what was observed). -/
def graphLoop (exec : ToolCall → String) : List ModelResponse → AgentState → List Stage
  | [], _ => []
  | r :: rest, s =>
    let s1 := agent_node r s
    let route := should_continue s1
    Stage.agent_response ::
      (if route = "tools" then
        Stage.tools :: graphLoop exec rest (tools_node exec s1)
      else if route = "format_response" then
        [Stage.response_formatted, Stage.terminal]
      else
        [Stage.terminal])

/-- A full run of the compiled graph from the entry point: context enricher
first, then the agent/tools loop. -/
def runTrace (exec : ToolCall → String) (s0 : AgentState) (rs : List ModelResponse) : List Stage :=
  Stage.context_enriched :: graphLoop exec rs (context_node s0)

/-- `k` repetitions of the backward edge: tools, then agent again. -/
def toolRounds : Nat → List Stage
  | 0 => []
  | k + 1 => Stage.tools :: Stage.agent_response :: toolRounds k

/-- The step pattern of the specification:
context_enriched, agent_response, (tools, agent_response)^k, response_formatted. -/
def patternTrace (k : Nat) : List Stage :=
  Stage.context_enriched :: Stage.agent_response :: (toolRounds k ++ [Stage.response_formatted])

/-- Concatenation of the lists produced by `f` over a list. -/
def concatMap {α β : Type} (f : α → List β) : List α → List β
  | [] => []
  | a :: t => f a ++ concatMap f t

/-- `_iter_tool_calls` (app/utils/ai.py, lines 32-45): yield `(name, args)`
pairs, with `args or \x7b\x7d` defaulting a missing args object. -/
def _iter_tool_calls (msg : Message) : List (Option String × List (String × String)) :=
  msg.tool_calls.map (fun tc => (tc.name, tc.args.getD []))

/-- One `(message, metadata)` pair pulled from `agent.stream(...,
stream_mode="messages")`: the graph node name from
`meta.get("langgraph_node")` together with the message. -/
structure StreamItem where
  node : String
  msg : Message
deriving DecidableEq, Repr

/-- The loop body of `gen` (chat.py, lines 340-359) for one streamed item:
for the agent node, emit a `tool_call` event per truthy tool-call name and a
`token` event for truthy assistant text (`_extract_text` returns the message
text); for any other node, emit a `tool_result` event whose `tool` field is
the NODE name and whose content is the message content. -/
def emitStreamItem (it : StreamItem) : List Event :=
  if it.node = "agent" then
    ((_iter_tool_calls it.msg).filterMap (fun p =>
        match p.1 with
        | some n => if n ≠ "" then some (Event.tool_call n p.2) else none
        | none => none)) ++
      (if it.msg.content ≠ "" then [Event.token it.msg.content] else [])
  else
    [Event.tool_result it.node it.msg.content]

/-- The messages streamed by one run of the compiled graph, given the
successive model responses and the tool implementations: the agent node
streams its AIMessage; when it carries tool calls, the tools node streams one
ToolMessage per call (in emission order) and the loop repeats. -/
def runStream (exec : ToolCall → String) : List ModelResponse → List StreamItem
  | [] => []
  | r :: rest =>
    { node := "agent", msg := aiMessageOf r } ::
      (if r.tool_calls.isEmpty then []
       else
         r.tool_calls.map (fun tc =>
           { node := "tools", msg := { role := Role.tool, content := exec tc } }) ++
           runStream exec rest)

/-- How the iteration of `agent.stream` inside `gen` ends: either it is
exhausted normally, or an exception is raised after a prefix of the items
(model invocation or tool execution failure). -/
inductive StreamOutcome
  | ok (items : List StreamItem)
  | failAfter (items : List StreamItem)
deriving Repr

/-- The generator `gen` (chat.py, lines 277-363): the refusal fast path
streams the canned message one whitespace-delimited word at a time (each
token text is the word plus a trailing space) and never consults the model
stream; otherwise the streamed items are converted to events, and any
exception is converted into a single terminal `error` event with the fixed
generic message. -/
def gen (message : String) (outcome : StreamOutcome) : List Event :=
  if _is_non_smoking_question message then
    (pySplit _get_smoking_refusal_response).map (fun word => Event.token (word ++ " "))
  else
    match outcome with
    | StreamOutcome.ok items => concatMap emitStreamItem items
    | StreamOutcome.failAfter items =>
        concatMap emitStreamItem items ++ [Event.error generic_error_message]

/-- The preference row with its loaded goals (models/preference.py fields
read by `chat_stream`).  Dates are day numbers, so date subtraction is
integer subtraction. -/
structure Pref where
  quit_date : Int
  reason : Option String
  cig_per_day : Option Int
  years_smoking : Option Int
  cig_price : Option Int
  language : Option String
  goals : List Goal
deriving DecidableEq, Repr

/-- Result of one awaited database read inside a try block: either the value
or a raised exception. -/
inductive Fetch (α : Type)
  | ok (value : α)
  | raised
deriving Repr

/-- The `user_context` dict built by `chat_stream` (same key convention as
`Ctx`). -/
structure UserCtx where
  user_id : Option String := none
  quit_date : Option Int := none
  days_since_quit : Option Int := none
  quit_reason : Option String := none
  cigarettes_per_day : Option Int := none
  years_smoking : Option Int := none
  cigarette_price : Option Int := none
  language : Option String := none
  goals : Option (List Goal) := none
  recent_cravings : Option (List Craving) := none
  recent_diary_entries : Option (List DiaryEntry) := none
deriving DecidableEq, Repr

/-- Python truthiness of the `user_context` dict. -/
def UserCtx.truthy (u : UserCtx) : Bool :=
  u.user_id.isSome || u.quit_date.isSome || u.days_since_quit.isSome ||
  u.quit_reason.isSome || u.cigarettes_per_day.isSome || u.years_smoking.isSome ||
  u.cigarette_price.isSome || u.language.isSome || u.goals.isSome ||
  u.recent_cravings.isSome || u.recent_diary_entries.isSome

/-- Python `x or default` for an optional string ("" is falsy). -/
def pyOrStr (x : Option String) (default : String) : String :=
  match x with
  | some s => if s = "" then default else s
  | none => default

/-- The context-snapshot builder of `chat_stream` (chat.py, lines 158-265).
Two separate try blocks: the first loads the preference row and fills the
scalar fields and goals (computing `days_since_quit = today - quit_date`,
`cig_per_day or 0`, `language or "en-us"`); the SECOND loads cravings and
then diary entries and attaches both lists AFTER both reads succeed, so an
exception anywhere in it leaves the snapshot as the first block made it.
Each `except` clause only logs. -/
def buildUserContext (uid : String) (today : Int)
    (prefFetch : Fetch (Option Pref))
    (cravingsFetch : Fetch (List Craving))
    (diaryFetch : Fetch (List DiaryEntry)) : UserCtx :=
  let user_context : UserCtx :=
    match prefFetch with
    | Fetch.ok (some preference) =>
        { user_id := some uid
          quit_date := some preference.quit_date
          days_since_quit := some (today - preference.quit_date)
          quit_reason := preference.reason
          cigarettes_per_day := some ((preference.cig_per_day).getD 0)
          years_smoking := some ((preference.years_smoking).getD 0)
          cigarette_price := some ((preference.cig_price).getD 0)
          language := some (pyOrStr preference.language "en-us")
          goals := some preference.goals }
    | Fetch.ok none => {}
    | Fetch.raised => {}
  match cravingsFetch, diaryFetch with
  | Fetch.ok cravings_data, Fetch.ok diary_data =>
      if user_context.truthy then
        { user_context with
            recent_cravings := some cravings_data
            recent_diary_entries := some diary_data }
      else user_context
  | _, _ => user_context

/-- The `initial_state` built by `gen` (chat.py, lines 292-323): one user
message, and when the snapshot is truthy, every snapshot field copied into
the state and into a fresh `conversation_context` dict. -/
def mkInitialState (message : String) (uc : UserCtx) : AgentState :=
  if uc.truthy then
    { messages := [mkHumanMessage message]
      user_id := uc.user_id
      quit_date := uc.quit_date.map toString
      days_since_quit := uc.days_since_quit
      quit_reason := uc.quit_reason
      cigarettes_per_day := uc.cigarettes_per_day
      years_smoking := uc.years_smoking
      cigarette_price := uc.cigarette_price
      language := uc.language
      goals := uc.goals
      recent_cravings := uc.recent_cravings
      recent_diary_entries := uc.recent_diary_entries
      conversation_context := some
        { user_id := uc.user_id
          quit_date := uc.quit_date.map toString
          days_since_quit := uc.days_since_quit
          quit_reason := uc.quit_reason
          cigarettes_per_day := uc.cigarettes_per_day
          years_smoking := uc.years_smoking
          cigarette_price := uc.cigarette_price
          language := uc.language
          goals := uc.goals
          recent_cravings := uc.recent_cravings
          recent_diary_entries := uc.recent_diary_entries } }
  else
    { messages := [mkHumanMessage message] }

/-- `_assert_non_negative` (app/core/health.py, lines 9-12). -/
def _assert_non_negative (days_since_quit : Int) : Int :=
  if days_since_quit < 0 then 0 else days_since_quit

/-- `calculate_nicotine_expelled` (health.py, lines 15-26); float arithmetic
idealized over the reals. -/
noncomputable def calculate_nicotine_expelled (days_since_quit : Int) : Int :=
  let has_not_started := _assert_non_negative days_since_quit
  if has_not_started = 0 then 0
  else
    let tau_days : ℝ := (2 / Real.log 2) / 24
    let index : ℝ := 100 * (1 - Real.exp (-(days_since_quit : ℝ) / tau_days))
    round (min index 100)

/-- `calculate_carbon_monoxide_level` (health.py, lines 29-39). -/
noncomputable def calculate_carbon_monoxide_level (days_since_quit : Int) : Int :=
  let has_not_started := _assert_non_negative days_since_quit
  if has_not_started = 0 then 0
  else
    let tau_days : ℝ := (5 * 60) / Real.log 2 / 1440
    let index : ℝ := 100 * (1 - Real.exp (-(days_since_quit : ℝ) / tau_days))
    round (min index 100)

/-- `calculate_pulse_rate` (health.py, lines 42-50). -/
noncomputable def calculate_pulse_rate (days_since_quit : Int) : Int :=
  let has_not_started := _assert_non_negative days_since_quit
  if has_not_started = 0 then 0
  else round (min ((days_since_quit : ℝ) / 1 * 100) 100)

/-- `calculate_oxygen_levels` (health.py, lines 53-61). -/
noncomputable def calculate_oxygen_levels (days_since_quit : Int) : Int :=
  let has_not_started := _assert_non_negative days_since_quit
  if has_not_started = 0 then 0
  else round (min ((days_since_quit : ℝ) / 3 * 100) 100)

/-- `calculate_taste_and_smell` (health.py, lines 64-72). -/
noncomputable def calculate_taste_and_smell (days_since_quit : Int) : Int :=
  let has_not_started := _assert_non_negative days_since_quit
  if has_not_started = 0 then 0
  else round (min ((days_since_quit : ℝ) / 60 * 100) 100)

/-- `calculate_breathing` (health.py, lines 75-83). -/
noncomputable def calculate_breathing (days_since_quit : Int) : Int :=
  let has_not_started := _assert_non_negative days_since_quit
  if has_not_started = 0 then 0
  else round (min ((days_since_quit : ℝ) / 90 * 100) 100)

/-- `calculate_energy_levels` (health.py, lines 86-94). -/
noncomputable def calculate_energy_levels (days_since_quit : Int) : Int :=
  let has_not_started := _assert_non_negative days_since_quit
  if has_not_started = 0 then 0
  else round (min ((days_since_quit : ℝ) / 90 * 100) 100)

/-- `calculate_circulation` (health.py, lines 97-105). -/
noncomputable def calculate_circulation (days_since_quit : Int) : Int :=
  let has_not_started := _assert_non_negative days_since_quit
  if has_not_started = 0 then 0
  else round (min ((days_since_quit : ℝ) / 90 * 100) 100)

/-- `calculate_gum_texture` (health.py, lines 108-116). -/
noncomputable def calculate_gum_texture (days_since_quit : Int) : Int :=
  let has_not_started := _assert_non_negative days_since_quit
  if has_not_started = 0 then 0
  else round (min ((days_since_quit : ℝ) / 180 * 100) 100)

/-- `calculate_immunity_and_lung_function` (health.py, lines 119-127). -/
noncomputable def calculate_immunity_and_lung_function (days_since_quit : Int) : Int :=
  let has_not_started := _assert_non_negative days_since_quit
  if has_not_started = 0 then 0
  else round (min ((days_since_quit : ℝ) / 14 * 100) 100)

/-- `calculate_reduced_risk_of_heart_disease` (health.py, lines 130-144). -/
noncomputable def calculate_reduced_risk_of_heart_disease (days_since_quit : Int) : Int :=
  let has_not_started := _assert_non_negative days_since_quit
  if has_not_started = 0 then 0
  else
    let t_months : ℝ := (days_since_quit : ℝ) / 30
    let rr_inf : ℝ := 0.5
    let tau : ℝ := 12 / Real.log 2
    let rr_t : ℝ := (1 - rr_inf) * Real.exp (-t_months / tau) + rr_inf
    let index : ℝ := (1 - rr_t) / (1 - rr_inf) * 100
    round (min index 100)

/-- `calculate_decreased_risk_of_lung_cancer` (health.py, lines 147-160). -/
noncomputable def calculate_decreased_risk_of_lung_cancer (days_since_quit : Int) : Int :=
  let has_not_started := _assert_non_negative days_since_quit
  if has_not_started = 0 then 0
  else
    let t_months : ℝ := (days_since_quit : ℝ) / 30
    let rr_inf : ℝ := 0.03
    let tau : ℝ := 162
    let rr_t : ℝ := (1 - rr_inf) * Real.exp (-t_months / tau) + rr_inf
    let index : ℝ := (1 - rr_t) / (1 - rr_inf) * 100
    round (min index 100)

/-- `calculate_decreased_risk_of_heart_attack` (health.py, lines 163-168):
delegates to the heart-disease index. -/
noncomputable def calculate_decreased_risk_of_heart_attack (days_since_quit : Int) : Int :=
  calculate_reduced_risk_of_heart_disease days_since_quit

/-- `calculate_life_regained_in_hours` (health.py, lines 171-187). -/
noncomputable def calculate_life_regained_in_hours (days_since_quit : Int) : Int :=
  let has_not_started := _assert_non_negative days_since_quit
  if has_not_started = 0 then 0
  else
    let minutes_per_cigarette : ℝ := 20
    let cigarettes_per_day : ℝ := 10
    let hours_per_day_regained : ℝ := (cigarettes_per_day * minutes_per_cigarette) / 60
    let total_hours : ℝ := (days_since_quit : ℝ) * hours_per_day_regained
    round total_hours

/-- The tail of the specification pattern after the entry stage. -/
def patTail (k : Nat) : List Stage :=
  Stage.agent_response :: (toolRounds k ++ [Stage.response_formatted])

/-- Every `tool_call` event in the list is followed, strictly later in the
list, by some `tool_result` event. -/
def Resolved : List Event → Prop
  | [] => True
  | e :: t => (e.isToolCall = true → ∃ e2 ∈ t, e2.isToolResult = true) ∧ Resolved t

/-- Concatenation of the texts of the `token` events of a stream. -/
def concatTokenTexts (evs : List Event) : String :=
  String.join (evs.filterMap Event.tokenText)

/-! ### Lemmas about the health index calculators -/

theorem assert_zero_of_nonpos {d : Int} (h : d ≤ 0) : _assert_non_negative d = 0 := by
  unfold _assert_non_negative
  split <;> omega

theorem one_le_of_assert_ne_zero {d : Int} (h : ¬ _assert_non_negative d = 0) : 1 ≤ d := by
  unfold _assert_non_negative at h
  split at h <;> omega

theorem round_nonneg_of_nonneg {x : ℝ} (h : 0 ≤ x) : 0 ≤ round x := by
  have h2 : round (0 : ℝ) ≤ round x := by
    rw [round_eq, round_eq]
    exact Int.floor_mono (by linarith)
  simpa using h2

theorem round_min_bounds {idx : ℝ} (h : 0 ≤ idx) :
    0 ≤ round (min idx 100) ∧ round (min idx 100) ≤ 100 := by
  have h0 : (0 : ℝ) ≤ min idx 100 := le_min h (by norm_num)
  have h1 : min idx 100 ≤ (100 : ℝ) := min_le_right _ _
  refine ⟨round_nonneg_of_nonneg h0, ?_⟩
  have h2 : round (min idx 100) ≤ round ((100 : ℤ) : ℝ) := by
    rw [round_eq, round_eq]
    exact Int.floor_mono (by push_cast; linarith)
  simpa using h2

theorem cast_nonneg_of_one_le {d : Int} (h : 1 ≤ d) : (0 : ℝ) ≤ (d : ℝ) := by
  exact_mod_cast le_trans (by omega : (0 : ℤ) ≤ d) le_rfl

theorem lin_index_nonneg {d : Int} (h : 1 ≤ d) {c : ℝ} (hc : 0 < c) :
    0 ≤ (d : ℝ) / c * 100 :=
  mul_nonneg (div_nonneg (cast_nonneg_of_one_le h) hc.le) (by norm_num)

theorem exp_index_nonneg {d : Int} (h : 1 ≤ d) {c : ℝ} (hc : 0 < c) :
    0 ≤ 100 * (1 - Real.exp (-(d : ℝ) / c)) := by
  have hexp : Real.exp (-(d : ℝ) / c) ≤ 1 := by
    rw [Real.exp_le_one_iff]
    have hd : (0 : ℝ) ≤ (d : ℝ) / c := div_nonneg (cast_nonneg_of_one_le h) hc.le
    rw [neg_div]
    linarith
  linarith

theorem log_two_pos : 0 < Real.log 2 :=
  Real.log_pos (by norm_num)

theorem heart_index_nonneg {d : Int} (h : 1 ≤ d) :
    0 ≤ (1 - ((1 - 0.5) * Real.exp (-((d : ℝ) / 30) / (12 / Real.log 2)) + 0.5)) /
          (1 - 0.5) * 100 := by
  have hc : (0 : ℝ) < 12 / Real.log 2 := by positivity
  have hexp : Real.exp (-((d : ℝ) / 30) / (12 / Real.log 2)) ≤ 1 := by
    rw [Real.exp_le_one_iff]
    have hd : (0 : ℝ) ≤ (d : ℝ) / 30 := div_nonneg (cast_nonneg_of_one_le h) (by norm_num)
    have : (0 : ℝ) ≤ (d : ℝ) / 30 / (12 / Real.log 2) := div_nonneg hd hc.le
    rw [neg_div]
    linarith
  have hnum : (0 : ℝ) ≤ 1 - ((1 - 0.5) * Real.exp (-((d : ℝ) / 30) / (12 / Real.log 2)) + 0.5) := by
    nlinarith [Real.exp_pos (-((d : ℝ) / 30) / (12 / Real.log 2))]
  have hden : (0 : ℝ) < 1 - 0.5 := by norm_num
  exact mul_nonneg (div_nonneg hnum hden.le) (by norm_num)

theorem lung_index_nonneg {d : Int} (h : 1 ≤ d) :
    0 ≤ (1 - ((1 - 0.03) * Real.exp (-((d : ℝ) / 30) / 162) + 0.03)) /
          (1 - 0.03) * 100 := by
  have hexp : Real.exp (-((d : ℝ) / 30) / 162) ≤ 1 := by
    rw [Real.exp_le_one_iff]
    have hd : (0 : ℝ) ≤ (d : ℝ) / 30 := div_nonneg (cast_nonneg_of_one_le h) (by norm_num)
    have : (0 : ℝ) ≤ (d : ℝ) / 30 / 162 := div_nonneg hd (by norm_num)
    rw [neg_div]
    linarith
  have hnum : (0 : ℝ) ≤ 1 - ((1 - 0.03) * Real.exp (-((d : ℝ) / 30) / 162) + 0.03) := by
    nlinarith [Real.exp_pos (-((d : ℝ) / 30) / 162)]
  have hden : (0 : ℝ) < 1 - 0.03 := by norm_num
  exact mul_nonneg (div_nonneg hnum hden.le) (by norm_num)

theorem nicotine_in_range (d : Int) :
    0 ≤ calculate_nicotine_expelled d ∧ calculate_nicotine_expelled d ≤ 100 := by
  by_cases h : _assert_non_negative d = 0
  · simp [calculate_nicotine_expelled, h]
  · have hd := one_le_of_assert_ne_zero h
    have hc : (0 : ℝ) < (2 / Real.log 2) / 24 := by positivity
    have hb := round_min_bounds (exp_index_nonneg hd hc)
    simpa [calculate_nicotine_expelled, h] using hb

theorem co_in_range (d : Int) :
    0 ≤ calculate_carbon_monoxide_level d ∧ calculate_carbon_monoxide_level d ≤ 100 := by
  by_cases h : _assert_non_negative d = 0
  · simp [calculate_carbon_monoxide_level, h]
  · have hd := one_le_of_assert_ne_zero h
    have hc : (0 : ℝ) < (5 * 60) / Real.log 2 / 1440 := by positivity
    have hb := round_min_bounds (exp_index_nonneg hd hc)
    simpa [calculate_carbon_monoxide_level, h] using hb

theorem lin_calc_in_range (c : ℝ) (hc : 0 < c) (d : Int) (h : ¬ _assert_non_negative d = 0) :
    0 ≤ round (min ((d : ℝ) / c * 100) 100) ∧ round (min ((d : ℝ) / c * 100) 100) ≤ 100 :=
  round_min_bounds (lin_index_nonneg (one_le_of_assert_ne_zero h) hc)

theorem pulse_in_range (d : Int) :
    0 ≤ calculate_pulse_rate d ∧ calculate_pulse_rate d ≤ 100 := by
  by_cases h : _assert_non_negative d = 0
  · simp [calculate_pulse_rate, h]
  · simpa [calculate_pulse_rate, h] using lin_calc_in_range 1 (by norm_num) d h

theorem oxygen_in_range (d : Int) :
    0 ≤ calculate_oxygen_levels d ∧ calculate_oxygen_levels d ≤ 100 := by
  by_cases h : _assert_non_negative d = 0
  · simp [calculate_oxygen_levels, h]
  · simpa [calculate_oxygen_levels, h] using lin_calc_in_range 3 (by norm_num) d h

theorem taste_in_range (d : Int) :
    0 ≤ calculate_taste_and_smell d ∧ calculate_taste_and_smell d ≤ 100 := by
  by_cases h : _assert_non_negative d = 0
  · simp [calculate_taste_and_smell, h]
  · simpa [calculate_taste_and_smell, h] using lin_calc_in_range 60 (by norm_num) d h

theorem breathing_in_range (d : Int) :
    0 ≤ calculate_breathing d ∧ calculate_breathing d ≤ 100 := by
  by_cases h : _assert_non_negative d = 0
  · simp [calculate_breathing, h]
  · simpa [calculate_breathing, h] using lin_calc_in_range 90 (by norm_num) d h

theorem energy_in_range (d : Int) :
    0 ≤ calculate_energy_levels d ∧ calculate_energy_levels d ≤ 100 := by
  by_cases h : _assert_non_negative d = 0
  · simp [calculate_energy_levels, h]
  · simpa [calculate_energy_levels, h] using lin_calc_in_range 90 (by norm_num) d h

theorem circulation_in_range (d : Int) :
    0 ≤ calculate_circulation d ∧ calculate_circulation d ≤ 100 := by
  by_cases h : _assert_non_negative d = 0
  · simp [calculate_circulation, h]
  · simpa [calculate_circulation, h] using lin_calc_in_range 90 (by norm_num) d h

theorem gum_in_range (d : Int) :
    0 ≤ calculate_gum_texture d ∧ calculate_gum_texture d ≤ 100 := by
  by_cases h : _assert_non_negative d = 0
  · simp [calculate_gum_texture, h]
  · simpa [calculate_gum_texture, h] using lin_calc_in_range 180 (by norm_num) d h

theorem immunity_in_range (d : Int) :
    0 ≤ calculate_immunity_and_lung_function d ∧ calculate_immunity_and_lung_function d ≤ 100 := by
  by_cases h : _assert_non_negative d = 0
  · simp [calculate_immunity_and_lung_function, h]
  · simpa [calculate_immunity_and_lung_function, h] using lin_calc_in_range 14 (by norm_num) d h

theorem heart_in_range (d : Int) :
    0 ≤ calculate_reduced_risk_of_heart_disease d ∧
      calculate_reduced_risk_of_heart_disease d ≤ 100 := by
  by_cases h : _assert_non_negative d = 0
  · simp [calculate_reduced_risk_of_heart_disease, h]
  · have hd := one_le_of_assert_ne_zero h
    have hb := round_min_bounds (heart_index_nonneg hd)
    simpa [calculate_reduced_risk_of_heart_disease, h] using hb

theorem lung_cancer_in_range (d : Int) :
    0 ≤ calculate_decreased_risk_of_lung_cancer d ∧
      calculate_decreased_risk_of_lung_cancer d ≤ 100 := by
  by_cases h : _assert_non_negative d = 0
  · simp [calculate_decreased_risk_of_lung_cancer, h]
  · have hd := one_le_of_assert_ne_zero h
    have hb := round_min_bounds (lung_index_nonneg hd)
    simpa [calculate_decreased_risk_of_lung_cancer, h] using hb

theorem life_nonneg (d : Int) : 0 ≤ calculate_life_regained_in_hours d := by
  by_cases h : _assert_non_negative d = 0
  · simp [calculate_life_regained_in_hours, h]
  · have hd := one_le_of_assert_ne_zero h
    have hb : (0 : ℝ) ≤ (d : ℝ) * ((10 * 20) / 60) :=
      mul_nonneg (cast_nonneg_of_one_le hd) (by norm_num)
    simpa [calculate_life_regained_in_hours, h] using round_nonneg_of_nonneg hb

theorem heart_attack_in_range (d : Int) :
    0 ≤ calculate_decreased_risk_of_heart_attack d ∧
      calculate_decreased_risk_of_heart_attack d ≤ 100 := by
  simpa [calculate_decreased_risk_of_heart_attack] using heart_in_range d

/-- C10: every health-index calculator in app/core/health.py returns 0 for
every non-positive `days_since_quit` (here quantified as `min d 0`, which
ranges over exactly the non-positive integers), and every calculator except
`calculate_life_regained_in_hours` returns a value between 0 and 100
inclusive on every integer input, while `calculate_life_regained_in_hours`
is non-negative on every integer input. -/
theorem c10_health_bounds (d : Int) :
    (calculate_nicotine_expelled (min d 0) = 0 ∧
     calculate_carbon_monoxide_level (min d 0) = 0 ∧
     calculate_pulse_rate (min d 0) = 0 ∧
     calculate_oxygen_levels (min d 0) = 0 ∧
     calculate_taste_and_smell (min d 0) = 0 ∧
     calculate_breathing (min d 0) = 0 ∧
     calculate_energy_levels (min d 0) = 0 ∧
     calculate_circulation (min d 0) = 0 ∧
     calculate_gum_texture (min d 0) = 0 ∧
     calculate_immunity_and_lung_function (min d 0) = 0 ∧
     calculate_reduced_risk_of_heart_disease (min d 0) = 0 ∧
     calculate_decreased_risk_of_lung_cancer (min d 0) = 0 ∧
     calculate_decreased_risk_of_heart_attack (min d 0) = 0 ∧
     calculate_life_regained_in_hours (min d 0) = 0) ∧
    ((0 ≤ calculate_nicotine_expelled d ∧ calculate_nicotine_expelled d ≤ 100) ∧
     (0 ≤ calculate_carbon_monoxide_level d ∧ calculate_carbon_monoxide_level d ≤ 100) ∧
     (0 ≤ calculate_pulse_rate d ∧ calculate_pulse_rate d ≤ 100) ∧
     (0 ≤ calculate_oxygen_levels d ∧ calculate_oxygen_levels d ≤ 100) ∧
     (0 ≤ calculate_taste_and_smell d ∧ calculate_taste_and_smell d ≤ 100) ∧
     (0 ≤ calculate_breathing d ∧ calculate_breathing d ≤ 100) ∧
     (0 ≤ calculate_energy_levels d ∧ calculate_energy_levels d ≤ 100) ∧
     (0 ≤ calculate_circulation d ∧ calculate_circulation d ≤ 100) ∧
     (0 ≤ calculate_gum_texture d ∧ calculate_gum_texture d ≤ 100) ∧
     (0 ≤ calculate_immunity_and_lung_function d ∧
        calculate_immunity_and_lung_function d ≤ 100) ∧
     (0 ≤ calculate_reduced_risk_of_heart_disease d ∧
        calculate_reduced_risk_of_heart_disease d ≤ 100) ∧
     (0 ≤ calculate_decreased_risk_of_lung_cancer d ∧
        calculate_decreased_risk_of_lung_cancer d ≤ 100) ∧
     (0 ≤ calculate_decreased_risk_of_heart_attack d ∧
        calculate_decreased_risk_of_heart_attack d ≤ 100) ∧
     0 ≤ calculate_life_regained_in_hours d) := by
  have hz := assert_zero_of_nonpos (min_le_right d 0)
  refine ⟨⟨?_, ?_, ?_, ?_, ?_, ?_, ?_, ?_, ?_, ?_, ?_, ?_, ?_, ?_⟩,
    nicotine_in_range d, co_in_range d, pulse_in_range d, oxygen_in_range d,
    taste_in_range d, breathing_in_range d, energy_in_range d, circulation_in_range d,
    gum_in_range d, immunity_in_range d, heart_in_range d, lung_cancer_in_range d,
    heart_attack_in_range d, life_nonneg d⟩
  · simp [calculate_nicotine_expelled, hz]
  · simp [calculate_carbon_monoxide_level, hz]
  · simp [calculate_pulse_rate, hz]
  · simp [calculate_oxygen_levels, hz]
  · simp [calculate_taste_and_smell, hz]
  · simp [calculate_breathing, hz]
  · simp [calculate_energy_levels, hz]
  · simp [calculate_circulation, hz]
  · simp [calculate_gum_texture, hz]
  · simp [calculate_immunity_and_lung_function, hz]
  · simp [calculate_reduced_risk_of_heart_disease, hz]
  · simp [calculate_decreased_risk_of_lung_cancer, hz]
  · simp [calculate_decreased_risk_of_heart_attack,
      calculate_reduced_risk_of_heart_disease, hz]
  · simp [calculate_life_regained_in_hours, hz]

/-! ### Lemmas about the turn state machine -/

theorem agent_node_ctx (r : ModelResponse) (s : AgentState) :
    (agent_node r s).conversation_context = s.conversation_context := rfl

theorem tools_node_ctx (exec : ToolCall → String) (s : AgentState) :
    (tools_node exec s).conversation_context = s.conversation_context := rfl

theorem should_continue_agent (r : ModelResponse) (s : AgentState) :
    should_continue (agent_node r s) =
      if ¬ r.tool_calls.isEmpty then "tools"
      else if (s.conversation_context.map Ctx.truthy).getD false then "format_response"
      else "end" := by
  unfold should_continue agent_node
  simp [List.getLast?_concat, aiMessageOf]

theorem patTail_succ (k : Nat) :
    patTail (k + 1) = Stage.agent_response :: Stage.tools :: patTail k := by
  simp [patTail, toolRounds]

theorem graphLoop_spec (exec : ToolCall → String) (rs : List ModelResponse) :
    ∀ s : AgentState, (s.conversation_context.map Ctx.truthy).getD false = true →
      ∃ k, graphLoop exec rs s = patTail k ++ [Stage.terminal] ∨
        ∃ t, graphLoop exec rs s ++ t = patTail k := by
  induction rs with
  | nil =>
    intro s _
    exact ⟨0, Or.inr ⟨patTail 0, by simp [graphLoop]⟩⟩
  | cons r rest ih =>
    intro s hctx
    by_cases hte : r.tool_calls.isEmpty
    · refine ⟨0, Or.inl ?_⟩
      rw [graphLoop, should_continue_agent]
      simp [hte, hctx, patTail, toolRounds]
    · have hctx2 : ((tools_node exec (agent_node r s)).conversation_context.map
          Ctx.truthy).getD false = true := by
        rw [tools_node_ctx, agent_node_ctx]; exact hctx
      obtain ⟨k, hk⟩ := ih (tools_node exec (agent_node r s)) hctx2
      refine ⟨k + 1, ?_⟩
      rw [graphLoop, should_continue_agent]
      rcases hk with hk | ⟨t, ht⟩
      · exact Or.inl (by rw [patTail_succ]; simp [hte, hk])
      · exact Or.inr ⟨t, by rw [patTail_succ]; simp [hte, ht]⟩

theorem patternTrace_eq_cons (k : Nat) :
    patternTrace k = Stage.context_enriched :: patTail k := rfl

/-- C1 counterexample: in a run started from a reachable initial state with
no user preferences (the snapshot builder found no preference row), the
conversation context stays an empty dict, `should_continue` routes to the
`"end"` edge, and the run reaches the terminal state directly after
agent_response; the response_formatted stage never occurs, contradicting the
claim that no run transitions from agent_response directly to the terminal
state without passing through response_formatted. -/
theorem c1_counterexample :
    runTrace (fun _ => "") (mkInitialState "hi"
        (buildUserContext "u1" 0 (Fetch.ok none) (Fetch.ok []) (Fetch.ok [])))
        [{ text := "Hello!" }] =
      [Stage.context_enriched, Stage.agent_response, Stage.terminal] ∧
    Stage.response_formatted ∉
      runTrace (fun _ => "") (mkInitialState "hi"
        (buildUserContext "u1" 0 (Fetch.ok none) (Fetch.ok []) (Fetch.ok [])))
        [{ text := "Hello!" }] := by
  constructor
  · rfl
  · decide

/-- C1 (amended): whenever the conversation context is non-empty after the
context-enrichment stage (in deployment: whenever the user has a preference
row), the stage sequence of a run is exactly
context_enriched, agent_response, (tools, agent_response)^k,
response_formatted followed by the terminal state, or a truncated
observation of it, i.e. a prefix of that pattern; runs whose conversation
context is empty may instead move from agent_response directly to the
terminal state. -/
theorem c1_step_sequence_amended (exec : ToolCall → String) (s0 : AgentState)
    (rs : List ModelResponse)
    (hctx : ((context_node s0).conversation_context.map Ctx.truthy).getD false = true) :
    ∃ k, runTrace exec s0 rs = patternTrace k ++ [Stage.terminal] ∨
      ∃ t, runTrace exec s0 rs ++ t = patternTrace k := by
  obtain ⟨k, hk⟩ := graphLoop_spec exec rs (context_node s0) hctx
  refine ⟨k, ?_⟩
  rcases hk with hk | ⟨t, ht⟩
  · exact Or.inl (by rw [runTrace, patternTrace_eq_cons, hk]; rfl)
  · exact Or.inr ⟨t, by rw [runTrace, patternTrace_eq_cons, ← ht]; rfl⟩

/-- C1 witness: a concrete personalized run (user with a preference row)
whose trace matches the pattern with zero tool rounds. -/
theorem c1_step_sequence_witness :
    ∃ k, runTrace (fun _ => "")
        { messages := [mkHumanMessage "hi"], user_id := some "u1" }
        [{ text := "Hello!" }] = patternTrace k ++ [Stage.terminal] ∨
      ∃ t, runTrace (fun _ => "")
        { messages := [mkHumanMessage "hi"], user_id := some "u1" }
        [{ text := "Hello!" }] ++ t = patternTrace k :=
  c1_step_sequence_amended (fun _ => "")
    { messages := [mkHumanMessage "hi"], user_id := some "u1" }
    [{ text := "Hello!" }] (by decide)

/-! ### Lemmas about the event stream -/

theorem concatMap_append {α β : Type} (f : α → List β) (l1 l2 : List α) :
    concatMap f (l1 ++ l2) = concatMap f l1 ++ concatMap f l2 := by
  induction l1 with
  | nil => rfl
  | cons a t ih => simp [concatMap, ih]

theorem resolved_of_no_calls {A : List Event} (h : ∀ e ∈ A, e.isToolCall = false) :
    Resolved A := by
  induction A with
  | nil => trivial
  | cons a t ih =>
    refine ⟨fun hc => ?_, ih fun e he => h e (List.mem_cons_of_mem _ he)⟩
    rw [h a (List.mem_cons_self _ _)] at hc
    cases hc

theorem resolved_append {A B : List Event}
    (hA : ∀ e ∈ A, e.isToolCall = true → ∃ e2 ∈ B, e2.isToolResult = true)
    (hB : Resolved B) : Resolved (A ++ B) := by
  induction A with
  | nil => simpa using hB
  | cons a t ih =>
    refine ⟨fun hc => ?_, ih fun e he hc => hA e (List.mem_cons_of_mem _ he) hc⟩
    obtain ⟨e2, he2, hr⟩ := hA a (List.mem_cons_self _ _) hc
    exact ⟨e2, List.mem_append_right _ he2, hr⟩

theorem resolved_split {l : List Event} (h : Resolved l) :
    ∀ l1 e l2, l = l1 ++ e :: l2 → e.isToolCall = true →
      ∃ e2 ∈ l2, e2.isToolResult = true := by
  induction l with
  | nil =>
    intro l1 e l2 heq
    cases l1 <;> simp at heq
  | cons a t ih =>
    intro l1 e l2 heq hc
    cases l1 with
    | nil =>
      simp only [List.nil_append, List.cons.injEq] at heq
      obtain ⟨rfl, rfl⟩ := heq
      exact h.1 hc
    | cons b t1 =>
      simp only [List.cons_append, List.cons.injEq] at heq
      exact ih h.2 t1 e l2 heq.2 hc

theorem runStream_tool_events (exec : ToolCall → String) (tcs : List ToolCall) :
    concatMap emitStreamItem
        (tcs.map fun tc => ({ node := "tools", msg := { role := Role.tool, content := exec tc } } : StreamItem)) =
      tcs.map fun tc => Event.tool_result "tools" (exec tc) := by
  induction tcs with
  | nil => rfl
  | cons tc t ih => simp [concatMap, emitStreamItem, ih]

theorem agent_events_shape (r : ModelResponse) :
    emitStreamItem { node := "agent", msg := aiMessageOf r } =
      ((_iter_tool_calls (aiMessageOf r)).filterMap fun p =>
        match p.1 with
        | some n => if n ≠ "" then some (Event.tool_call n p.2) else none
        | none => none) ++
      (if (aiMessageOf r).content ≠ "" then [Event.token (aiMessageOf r).content] else []) := by
  simp [emitStreamItem]

theorem agent_events_calls_or_token (r : ModelResponse) (e : Event)
    (he : e ∈ emitStreamItem { node := "agent", msg := aiMessageOf r }) :
    e.isToolCall = true ∨ e.isToken = true := by
  rw [agent_events_shape] at he
  rcases List.mem_append.mp he with he | he
  · obtain ⟨⟨pn, pa⟩, hmem, hp⟩ := List.mem_filterMap.mp he
    left
    cases pn with
    | none => simp at hp
    | some n =>
      by_cases hn : n = ""
      · simp [hn] at hp
      · simp [hn] at hp
        subst hp
        rfl
  · by_cases hc : (aiMessageOf r).content ≠ ""
    · simp [hc] at he
      subst he
      right
      rfl
    · simp [hc] at he

theorem ne_nil_of_not_isEmpty {α : Type} {l : List α} (h : ¬ l.isEmpty = true) : l ≠ [] := by
  cases l
  · simp at h
  · simp

theorem agent_events_empty_calls (r : ModelResponse) (hte : r.tool_calls = []) :
    emitStreamItem { node := "agent", msg := aiMessageOf r } =
      if r.text ≠ "" then [Event.token r.text] else [] := by
  simp [emitStreamItem, _iter_tool_calls, aiMessageOf, hte]

theorem stream_shape_empty (exec : ToolCall → String) (r : ModelResponse)
    (rest : List ModelResponse) (hte : r.tool_calls.isEmpty = true) :
    concatMap emitStreamItem (runStream exec (r :: rest)) =
      emitStreamItem { node := "agent", msg := aiMessageOf r } := by
  simp [runStream, hte, concatMap]

theorem stream_shape_tools (exec : ToolCall → String) (r : ModelResponse)
    (rest : List ModelResponse) (hte : ¬ r.tool_calls.isEmpty = true) :
    concatMap emitStreamItem (runStream exec (r :: rest)) =
      emitStreamItem { node := "agent", msg := aiMessageOf r } ++
        ((r.tool_calls.map fun tc => Event.tool_result "tools" (exec tc)) ++
          concatMap emitStreamItem (runStream exec rest)) := by
  simp [runStream, hte, concatMap, concatMap_append, runStream_tool_events]

theorem runStream_resolved (exec : ToolCall → String) (rs : List ModelResponse) :
    Resolved (concatMap emitStreamItem (runStream exec rs)) := by
  induction rs with
  | nil => trivial
  | cons r rest ih =>
    by_cases hte : r.tool_calls.isEmpty
    · rw [stream_shape_empty exec r rest hte]
      have hnil : r.tool_calls = [] := by
        cases h : r.tool_calls
        · rfl
        · rw [h] at hte; simp at hte
      rw [agent_events_empty_calls r hnil]
      refine resolved_of_no_calls fun e he => ?_
      by_cases hc : r.text ≠ ""
      · simp [hc] at he
        subst he
        rfl
      · simp [hc] at he
    · rw [stream_shape_tools exec r rest hte]
      have hne : r.tool_calls ≠ [] := ne_nil_of_not_isEmpty hte
      refine resolved_append (fun e he hc => ?_) (resolved_append (fun e he hc => ?_) ih)
      · obtain ⟨tc0, htc0⟩ := List.exists_mem_of_ne_nil _ hne
        refine ⟨Event.tool_result "tools" (exec tc0), List.mem_append_left _ ?_, rfl⟩
        exact List.mem_map_of_mem _ htc0
      · obtain ⟨tc, _, hmap⟩ := List.mem_map.mp he
        rw [← hmap] at hc
        cases hc

theorem call_not_result {e : Event} (h : e.isToolCall = true) : e.isToolResult = false := by
  cases e <;> first | rfl | cases h

theorem token_not_result {e : Event} (h : e.isToken = true) : e.isToolResult = false := by
  cases e <;> first | rfl | cases h

theorem stream_results_labeled_tools (exec : ToolCall → String) (rs : List ModelResponse) :
    ∀ e ∈ concatMap emitStreamItem (runStream exec rs),
      e.isToolResult = true → e.toolField = some "tools" := by
  induction rs with
  | nil =>
    intro e he
    simp [runStream, concatMap] at he
  | cons r rest ih =>
    intro e he hr
    by_cases hte : r.tool_calls.isEmpty
    · rw [stream_shape_empty exec r rest hte] at he
      rcases agent_events_calls_or_token r e he with hc | ht
      · rw [call_not_result hc] at hr; cases hr
      · rw [token_not_result ht] at hr; cases hr
    · rw [stream_shape_tools exec r rest hte] at he
      rcases List.mem_append.mp he with he | he
      · rcases agent_events_calls_or_token r e he with hc | ht
        · rw [call_not_result hc] at hr; cases hr
        · rw [token_not_result ht] at hr; cases hr
      · rcases List.mem_append.mp he with he | he
        · obtain ⟨tc, _, hmap⟩ := List.mem_map.mp he
          rw [← hmap]
          rfl
        · exact ih e he hr

/-- C2 counterexample: a non-aborting run in which the model requests the
tool `get_user_cravings`; the stream contains the tool_call event and a
tool_result event, but no tool_result event carries the tool name
`get_user_cravings` — the `tool` field of every tool_result event is the
graph node name "tools", so the claim that the matching tool_result carries
the same tool name N is false for this run. -/
theorem c2_counterexample :
    (Event.tool_call "get_user_cravings" [] ∈
      gen "craving history please" (StreamOutcome.ok (runStream (fun _ => "[]")
        [{ text := "", tool_calls := [{ name := some "get_user_cravings", args := none }] },
         { text := "Here is your craving history." }]))) ∧
    (∃ e ∈ gen "craving history please" (StreamOutcome.ok (runStream (fun _ => "[]")
        [{ text := "", tool_calls := [{ name := some "get_user_cravings", args := none }] },
         { text := "Here is your craving history." }])), e.isToolResult = true) ∧
    (∀ e ∈ gen "craving history please" (StreamOutcome.ok (runStream (fun _ => "[]")
        [{ text := "", tool_calls := [{ name := some "get_user_cravings", args := none }] },
         { text := "Here is your craving history." }])),
      e.isToolResult = true → e.toolField ≠ some "get_user_cravings") := by
  refine ⟨by decide, ⟨Event.tool_result "tools" "[]", by decide, rfl⟩, by decide⟩

/-- C2 (amended): in every run that does not abort early, every emitted
tool_call event is followed, later in the stream and before the terminal
event, by a tool_result event (so a tool_call always precedes its
tool_result); however the tool_result event carries the graph node name
"tools" in its `tool` field, not the called tool's own name. -/
theorem c2_tool_roundtrip_amended (m : String) (exec : ToolCall → String)
    (rs : List ModelResponse) (h : _is_non_smoking_question m = false) :
    (∀ l1 e l2, gen m (StreamOutcome.ok (runStream exec rs)) = l1 ++ e :: l2 →
      e.isToolCall = true → ∃ e2 ∈ l2, e2.isToolResult = true) ∧
    (∀ e ∈ gen m (StreamOutcome.ok (runStream exec rs)),
      e.isToolResult = true → e.toolField = some "tools") := by
  have hgen : gen m (StreamOutcome.ok (runStream exec rs)) =
      concatMap emitStreamItem (runStream exec rs) := by
    simp [gen, h]
  rw [hgen]
  exact ⟨resolved_split (runStream_resolved exec rs),
    stream_results_labeled_tools exec rs⟩

/-- C2 witness: the amended round-trip property instantiated on a concrete
run with one `get_user_cravings` tool round. -/
theorem c2_tool_roundtrip_witness :
    (∀ l1 e l2, gen "I have a craving" (StreamOutcome.ok (runStream (fun _ => "[]")
        [{ text := "", tool_calls := [{ name := some "get_user_cravings", args := none }] },
         { text := "done" }])) = l1 ++ e :: l2 →
      e.isToolCall = true → ∃ e2 ∈ l2, e2.isToolResult = true) ∧
    (∀ e ∈ gen "I have a craving" (StreamOutcome.ok (runStream (fun _ => "[]")
        [{ text := "", tool_calls := [{ name := some "get_user_cravings", args := none }] },
         { text := "done" }])),
      e.isToolResult = true → e.toolField = some "tools") :=
  c2_tool_roundtrip_amended "I have a craving" (fun _ => "[]")
    [{ text := "", tool_calls := [{ name := some "get_user_cravings", args := none }] },
     { text := "done" }] (by decide)

theorem emitStreamItem_no_error (it : StreamItem) :
    ∀ e ∈ emitStreamItem it, e.isError = false := by
  intro e he
  unfold emitStreamItem at he
  by_cases hn : it.node = "agent"
  · rw [if_pos hn] at he
    rcases List.mem_append.mp he with he | he
    · obtain ⟨⟨pn, pa⟩, _, hp⟩ := List.mem_filterMap.mp he
      cases pn with
      | none => simp at hp
      | some n =>
        by_cases hne : n = ""
        · simp [hne] at hp
        · simp [hne] at hp
          subst hp
          rfl
    · by_cases hc : it.msg.content ≠ ""
      · simp [hc] at he
        subst he
        rfl
      · simp [hc] at he
  · rw [if_neg hn] at he
    simp at he
    subst he
    rfl

theorem concatMap_no_error (items : List StreamItem) :
    ∀ e ∈ concatMap emitStreamItem items, e.isError = false := by
  induction items with
  | nil => intro e he; simp [concatMap] at he
  | cons it t ih =>
    intro e he
    rcases List.mem_append.mp he with he | he
    · exact emitStreamItem_no_error it e he
    · exact ih e he

/-- C9: if the model invocation or a tool execution raises, the generator
emits the events already produced followed by exactly one error event whose
message is the fixed generic user-safe string (independent of the underlying
exception), and no event follows the error event (it is the last element of
the stream). -/
theorem c9_error_event (m : String) (items : List StreamItem)
    (h : _is_non_smoking_question m = false) :
    gen m (StreamOutcome.failAfter items) =
      concatMap emitStreamItem items ++ [Event.error generic_error_message] ∧
    (gen m (StreamOutcome.failAfter items)).countP (fun e => e.isError) = 1 ∧
    (gen m (StreamOutcome.failAfter items)).getLast? =
      some (Event.error generic_error_message) := by
  have hgen : gen m (StreamOutcome.failAfter items) =
      concatMap emitStreamItem items ++ [Event.error generic_error_message] := by
    simp [gen, h]
  refine ⟨hgen, ?_, ?_⟩
  · rw [hgen, List.countP_append]
    have hzero : (concatMap emitStreamItem items).countP (fun e => e.isError) = 0 := by
      rw [List.countP_eq_zero]
      intro e he
      simp [concatMap_no_error items e he]
    rw [hzero]
    rfl
  · rw [hgen, List.getLast?_concat]

/-- C9 witness: a model failure before any output yields the single error
event stream. -/
theorem c9_error_event_witness :
    gen "I have a craving" (StreamOutcome.failAfter []) =
      concatMap emitStreamItem [] ++ [Event.error generic_error_message] ∧
    (gen "I have a craving" (StreamOutcome.failAfter [])).countP (fun e => e.isError) = 1 ∧
    (gen "I have a craving" (StreamOutcome.failAfter [])).getLast? =
      some (Event.error generic_error_message) :=
  c9_error_event "I have a craving" [] (by decide)

set_option maxRecDepth 8000 in
/-- C4 counterexample: on the refused input "movie" the emitted token texts
each carry a trailing space (the code yields `word + " "` per word), so their
concatenation equals the canned refusal string followed by one trailing
space — not exactly the canned string, refuting the word-for-word
reconstruction as stated. -/
theorem c4_counterexample :
    _is_non_smoking_question "movie" = true ∧
    concatTokenTexts (gen "movie" (StreamOutcome.ok [])) =
      _get_smoking_refusal_response ++ " " ∧
    concatTokenTexts (gen "movie" (StreamOutcome.ok [])) ≠
      _get_smoking_refusal_response := by
  refine ⟨by decide, by decide, by decide⟩

set_option maxRecDepth 8000 in
/-- C4 (amended): for every input classified Refused, the stream is exactly
one token event per whitespace-delimited word of the canned refusal string,
each token text being the word followed by one space; hence the stream
contains only token events (no tool_call, tool_result or error events), the
concatenated token texts equal the canned string plus a single trailing
space, and the output is independent of the model stream (the model and the
tools are never consulted). -/
theorem c4_refusal_amended (m : String) (outcome : StreamOutcome)
    (h : _is_non_smoking_question m = true) :
    gen m outcome =
      (pySplit _get_smoking_refusal_response).map (fun word => Event.token (word ++ " ")) ∧
    (∀ e ∈ gen m outcome, e.isToken = true) ∧
    concatTokenTexts (gen m outcome) = _get_smoking_refusal_response ++ " " ∧
    gen m outcome = gen m (StreamOutcome.ok []) := by
  have hgen : gen m outcome =
      (pySplit _get_smoking_refusal_response).map (fun word => Event.token (word ++ " ")) := by
    cases outcome <;> simp [gen, h]
  refine ⟨hgen, ?_, ?_, ?_⟩
  · intro e he
    rw [hgen] at he
    obtain ⟨w, _, hw⟩ := List.mem_map.mp he
    rw [← hw]
    rfl
  · rw [hgen]
    decide
  · rw [hgen]
    simp [gen, h]

/-- C4 witness: the amended refusal property instantiated on the refused
input "movie" with a failing model stream, showing the model outcome is
irrelevant. -/
theorem c4_refusal_witness :
    gen "movie" (StreamOutcome.failAfter []) =
      (pySplit _get_smoking_refusal_response).map (fun word => Event.token (word ++ " ")) ∧
    (∀ e ∈ gen "movie" (StreamOutcome.failAfter []), e.isToken = true) ∧
    concatTokenTexts (gen "movie" (StreamOutcome.failAfter [])) =
      _get_smoking_refusal_response ++ " " ∧
    gen "movie" (StreamOutcome.failAfter []) = gen "movie" (StreamOutcome.ok []) :=
  c4_refusal_amended "movie" (StreamOutcome.failAfter []) (by decide)

/-! ### Lemmas about the context snapshot builder and the context node -/

/-- C3 counterexample: the craving fetch raises while the diary fetch would
succeed with a non-empty row list, yet the resulting snapshot has NO diary
entries (and no cravings): both reads live in one try block, so the claimed
populated diary list is false. -/
theorem c3_counterexample :
    (buildUserContext "u1" 10
        (Fetch.ok (some { quit_date := 3, reason := none, cig_per_day := some 10, years_smoking := some 5, cig_price := some 1, language := some "en-us", goals := [] }))
        Fetch.raised
        (Fetch.ok [{ id := 1, date := "2025-10-01", notes := some "ok", have_smoked := false, craving_range := 2, number_of_cravings := 1, number_of_cigarets_smoked := 0 }])).recent_diary_entries = none ∧
    (buildUserContext "u1" 10
        (Fetch.ok (some { quit_date := 3, reason := none, cig_per_day := some 10, years_smoking := some 5, cig_price := some 1, language := some "en-us", goals := [] }))
        Fetch.raised
        (Fetch.ok [{ id := 1, date := "2025-10-01", notes := some "ok", have_smoked := false, craving_range := 2, number_of_cravings := 1, number_of_cigarets_smoked := 0 }])).recent_cravings = none := by
  exact ⟨rfl, rfl⟩

/-- C3 (amended): a failure of the craving fetch (or of the diary fetch)
drops BOTH activity slices — cravings and diary share a single protected
block — while the preference slice of the snapshot is untouched and the
request is not aborted (the builder still returns a snapshot with the
user id, days_since_quit and goals from the preference row). -/
theorem c3_activity_failure_amended (uid : String) (today : Int) (p : Pref)
    (dF : Fetch (List DiaryEntry)) (cF : Fetch (List Craving)) :
    (buildUserContext uid today (Fetch.ok (some p)) Fetch.raised dF).recent_cravings = none ∧
    (buildUserContext uid today (Fetch.ok (some p)) Fetch.raised dF).recent_diary_entries = none ∧
    (buildUserContext uid today (Fetch.ok (some p)) cF Fetch.raised).recent_cravings = none ∧
    (buildUserContext uid today (Fetch.ok (some p)) cF Fetch.raised).recent_diary_entries = none ∧
    (buildUserContext uid today (Fetch.ok (some p)) Fetch.raised dF).user_id = some uid ∧
    (buildUserContext uid today (Fetch.ok (some p)) Fetch.raised dF).days_since_quit =
      some (today - p.quit_date) ∧
    (buildUserContext uid today (Fetch.ok (some p)) Fetch.raised dF).goals = some p.goals := by
  cases dF <;> cases cF <;>
    exact ⟨rfl, rfl, rfl, rfl, rfl, rfl, rfl⟩

/-- C5 counterexample: a state carrying a non-null but EMPTY goals list (and
a stale goals value in the conversation context from a prior turn): the
context node leaves the stale value in place because the merge tests Python
truthiness (`if state.get("goals"):`), not non-nullness, so the non-null
snapshot field goals = [] is left unmerged, contradicting the claim. -/
theorem c5_counterexample :
    ((context_node { messages := [], goals := some [], conversation_context := some { goals := some [{ id := 1, description := "walk daily", is_completed := true }] } }).conversation_context.getD {}).goals = some [{ id := 1, description := "walk daily", is_completed := true }] ∧
    ((context_node { messages := [], goals := some [], conversation_context := some { goals := some [{ id := 1, description := "walk daily", is_completed := true }] } }).conversation_context.getD {}).goals ≠ some [] := by
  exact ⟨rfl, by decide⟩

/-- C5 (amended): on entry to the context-enrichment stage every non-None
SCALAR user field of the state (user_id, quit_date, days_since_quit,
quit_reason, cigarettes_per_day, years_smoking, cigarette_price, language)
is merged into the conversation context, unconditionally overwriting any
stale value; the three list fields (goals, recent_cravings,
recent_diary_entries) are merged only when non-null AND non-empty — a
non-null empty list is left unmerged and the stale context value is kept. -/
theorem c5_context_merge_amended (s : AgentState) :
    (s.user_id.isSome = true →
      ((context_node s).conversation_context.getD {}).user_id = s.user_id) ∧
    (s.quit_date.isSome = true →
      ((context_node s).conversation_context.getD {}).quit_date = s.quit_date) ∧
    (s.days_since_quit.isSome = true →
      ((context_node s).conversation_context.getD {}).days_since_quit = s.days_since_quit) ∧
    (s.quit_reason.isSome = true →
      ((context_node s).conversation_context.getD {}).quit_reason = s.quit_reason) ∧
    (s.cigarettes_per_day.isSome = true →
      ((context_node s).conversation_context.getD {}).cigarettes_per_day = s.cigarettes_per_day) ∧
    (s.years_smoking.isSome = true →
      ((context_node s).conversation_context.getD {}).years_smoking = s.years_smoking) ∧
    (s.cigarette_price.isSome = true →
      ((context_node s).conversation_context.getD {}).cigarette_price = s.cigarette_price) ∧
    (s.language.isSome = true →
      ((context_node s).conversation_context.getD {}).language = s.language) ∧
    (∀ l, s.goals = some l → l ≠ [] →
      ((context_node s).conversation_context.getD {}).goals = some l) ∧
    (s.goals = some [] →
      ((context_node s).conversation_context.getD {}).goals =
        (s.conversation_context.getD {}).goals) ∧
    (∀ l, s.recent_cravings = some l → l ≠ [] →
      ((context_node s).conversation_context.getD {}).recent_cravings = some l) ∧
    (s.recent_cravings = some [] →
      ((context_node s).conversation_context.getD {}).recent_cravings =
        (s.conversation_context.getD {}).recent_cravings) ∧
    (∀ l, s.recent_diary_entries = some l → l ≠ [] →
      ((context_node s).conversation_context.getD {}).recent_diary_entries = some l) ∧
    (s.recent_diary_entries = some [] →
      ((context_node s).conversation_context.getD {}).recent_diary_entries =
        (s.conversation_context.getD {}).recent_diary_entries) := by
  refine ⟨?_, ?_, ?_, ?_, ?_, ?_, ?_, ?_, ?_, ?_, ?_, ?_, ?_, ?_⟩
  · intro h
    obtain ⟨v, hv⟩ := Option.isSome_iff_exists.mp h
    simp [context_node, mergeScalar, hv]
  · intro h
    obtain ⟨v, hv⟩ := Option.isSome_iff_exists.mp h
    simp [context_node, mergeScalar, hv]
  · intro h
    obtain ⟨v, hv⟩ := Option.isSome_iff_exists.mp h
    simp [context_node, mergeScalar, hv]
  · intro h
    obtain ⟨v, hv⟩ := Option.isSome_iff_exists.mp h
    simp [context_node, mergeScalar, hv]
  · intro h
    obtain ⟨v, hv⟩ := Option.isSome_iff_exists.mp h
    simp [context_node, mergeScalar, hv]
  · intro h
    obtain ⟨v, hv⟩ := Option.isSome_iff_exists.mp h
    simp [context_node, mergeScalar, hv]
  · intro h
    obtain ⟨v, hv⟩ := Option.isSome_iff_exists.mp h
    simp [context_node, mergeScalar, hv]
  · intro h
    obtain ⟨v, hv⟩ := Option.isSome_iff_exists.mp h
    simp [context_node, mergeScalar, hv]
  · intro l hl hne
    cases l with
    | nil => exact absurd rfl hne
    | cons a t => simp [context_node, mergeListField, hl]
  · intro hl
    simp [context_node, mergeListField, hl]
  · intro l hl hne
    cases l with
    | nil => exact absurd rfl hne
    | cons a t => simp [context_node, mergeListField, hl]
  · intro hl
    simp [context_node, mergeListField, hl]
  · intro l hl hne
    cases l with
    | nil => exact absurd rfl hne
    | cons a t => simp [context_node, mergeListField, hl]
  · intro hl
    simp [context_node, mergeListField, hl]

/-- C5 witness: the amended merge behavior instantiated on a concrete state
with a fresh days_since_quit overwriting a stale one and a non-empty goals
list being merged. -/
theorem c5_context_merge_witness :
    ((context_node { messages := [], days_since_quit := some 12, goals := some [{ id := 1, description := "walk daily", is_completed := false }], conversation_context := some { days_since_quit := some 11 } }).conversation_context.getD {}).days_since_quit = some 12 ∧
    ((context_node { messages := [], days_since_quit := some 12, goals := some [{ id := 1, description := "walk daily", is_completed := false }], conversation_context := some { days_since_quit := some 11 } }).conversation_context.getD {}).goals = some [{ id := 1, description := "walk daily", is_completed := false }] := by
  constructor
  · exact (c5_context_merge_amended { messages := [], days_since_quit := some 12, goals := some [{ id := 1, description := "walk daily", is_completed := false }], conversation_context := some { days_since_quit := some 11 } }).2.2.1 (by decide)
  · exact (c5_context_merge_amended { messages := [], days_since_quit := some 12, goals := some [{ id := 1, description := "walk daily", is_completed := false }], conversation_context := some { days_since_quit := some 11 } }).2.2.2.2.2.2.2.2.1 _ rfl (by decide)

theorem context_node_milestone (s : AgentState) :
    ((context_node s).conversation_context.getD {}).milestone =
      milestoneFor (s.days_since_quit.getD 0) ((s.conversation_context.getD {}).milestone) := rfl

/-- C7: when the conversation context carries no prior milestone, the
context-enrichment stage attaches a milestone annotation if and only if
days_since_quit equals one of the canonical checkpoints 1, 7, 30, 90, 365,
each mapping to its fixed celebratory string; in particular a
days_since_quit of 0 (and any other non-checkpoint value, negative values
included) attaches no milestone. -/
theorem c7_milestone (s : AgentState)
    (h : (s.conversation_context.getD {}).milestone = none) :
    (s.days_since_quit.getD 0 = 1 →
      ((context_node s).conversation_context.getD {}).milestone =
        some "First day smoke-free! Your body is already healing.") ∧
    (s.days_since_quit.getD 0 = 7 →
      ((context_node s).conversation_context.getD {}).milestone =
        some "One week! The worst of withdrawal is behind you.") ∧
    (s.days_since_quit.getD 0 = 30 →
      ((context_node s).conversation_context.getD {}).milestone =
        some "One month! Your lung function is improving.") ∧
    (s.days_since_quit.getD 0 = 90 →
      ((context_node s).conversation_context.getD {}).milestone =
        some "Three months! Your risk of heart disease is decreasing.") ∧
    (s.days_since_quit.getD 0 = 365 →
      ((context_node s).conversation_context.getD {}).milestone =
        some "One year! Your risk of heart disease is half that of a smoker.") ∧
    (s.days_since_quit.getD 0 ≠ 1 → s.days_since_quit.getD 0 ≠ 7 →
      s.days_since_quit.getD 0 ≠ 30 → s.days_since_quit.getD 0 ≠ 90 →
      s.days_since_quit.getD 0 ≠ 365 →
      ((context_node s).conversation_context.getD {}).milestone = none) := by
  rw [context_node_milestone, h]
  refine ⟨fun h1 => by rw [h1]; rfl, fun h7 => by rw [h7]; rfl,
    fun h30 => by rw [h30]; rfl, fun h90 => by rw [h90]; rfl,
    fun h365 => by rw [h365]; rfl, fun h1 h7 h30 h90 h365 => ?_⟩
  unfold milestoneFor
  split_ifs with hpos <;> rfl

/-- C7 witness: day 7 gets the one-week milestone string; day 0 gets none. -/
theorem c7_milestone_witness :
    ((context_node { messages := [], days_since_quit := some 7 }).conversation_context.getD {}).milestone =
      some "One week! The worst of withdrawal is behind you." ∧
    ((context_node { messages := [], days_since_quit := some 0 }).conversation_context.getD {}).milestone = none := by
  constructor
  · exact (c7_milestone { messages := [], days_since_quit := some 7 } rfl).2.1 rfl
  · exact (c7_milestone { messages := [], days_since_quit := some 0 } rfl).2.2.2.2.2
      (by decide) (by decide) (by decide) (by decide) (by decide)

/-- C6: message preparation for the model.  (a) A single-message list whose
message has role user gets the system prompt prepended.  (b) A list whose
leading message has role tool is replaced by the synthesized substitute: the
system reminder plus a user-role message wrapping the tool content — and
since a leading tool message can never satisfy the first-turn test, the
system prompt is never part of the substitute, which is exactly the "only if
it is also the first turn" condition.  (c) Any other non-empty list passes
through unmodified.  (d) Hence, whenever the incoming list does not already
contain the system policy message, the prepared list contains it at most
once per model invocation. -/
theorem c6_prepare_messages (msgs : List Message) (sm : String) :
    (∀ u, msgs = [u] → u.role = Role.human →
      _prepare_model_messages msgs sm = mkSystemMessage sm :: msgs) ∧
    (∀ m0 t, msgs = m0 :: t → m0.role = Role.tool →
      _prepare_model_messages msgs sm =
        [mkSystemMessage tool_reminder_text,
         mkHumanMessage ("Tool result:\n" ++ m0.content)]) ∧
    (∀ m0 t, msgs = m0 :: t → m0.role ≠ Role.tool →
      (msgs.length = 1 → m0.role ≠ Role.human) →
      _prepare_model_messages msgs sm = msgs) ∧
    (mkSystemMessage sm ∉ msgs → sm ≠ tool_reminder_text →
      (_prepare_model_messages msgs sm).count (mkSystemMessage sm) ≤ 1) := by
  refine ⟨?_, ?_, ?_, ?_⟩
  · intro u hu hrole
    subst hu
    simp [_prepare_model_messages, hrole, Role.typeName]
  · intro m0 t hmt hrole
    subst hmt
    simp [_prepare_model_messages, hrole, Role.typeName]
  · intro m0 t hmt hrole hnf
    subst hmt
    cases hr : m0.role with
    | tool => exact absurd hr hrole
    | human =>
      have hlen : (m0 :: t).length ≠ 1 := fun hl => (hnf hl) hr
      have ht : t ≠ [] := by
        intro hte
        exact hlen (by simp [hte])
      simp [_prepare_model_messages, hr, Role.typeName, List.length_eq_one, ht]
    | ai => simp [_prepare_model_messages, hr, Role.typeName]
    | system => simp [_prepare_model_messages, hr, Role.typeName]
  · intro hnotin hne
    cases msgs with
    | nil =>
      simp [_prepare_model_messages, List.count_cons]
    | cons m0 t =>
      have hcount0 : (m0 :: t).count (mkSystemMessage sm) = 0 :=
        List.count_eq_zero.mpr hnotin
      cases hr : m0.role with
      | tool =>
        have hrem : mkSystemMessage sm ≠ mkSystemMessage tool_reminder_text := by
          intro hcontra
          exact hne (congrArg Message.content hcontra)
        have hhum : mkSystemMessage sm ≠ mkHumanMessage ("Tool result:\n" ++ m0.content) := by
          intro hcontra
          cases congrArg Message.role hcontra
        simp [_prepare_model_messages, hr, Role.typeName, List.count_cons, hrem, hhum]
      | human =>
        by_cases hlen : t = []
        · subst hlen
          simp [_prepare_model_messages, hr, Role.typeName, List.count_cons, hcount0]
        · simp [_prepare_model_messages, hr, Role.typeName, List.length_eq_one, hlen, hcount0]
      | ai =>
        simp [_prepare_model_messages, hr, Role.typeName, hcount0]
      | system =>
        simp [_prepare_model_messages, hr, Role.typeName, hcount0]

/-- C6 witness: the first user turn gets the system prompt prepended, and a
leading tool message is replaced by the synthesized substitute without the
system prompt. -/
theorem c6_prepare_messages_witness :
    _prepare_model_messages [mkHumanMessage "hi"] "SYSTEM PROMPT" =
      [mkSystemMessage "SYSTEM PROMPT", mkHumanMessage "hi"] ∧
    _prepare_model_messages [{ role := Role.tool, content := "42" }] "SYSTEM PROMPT" =
      [mkSystemMessage tool_reminder_text, mkHumanMessage ("Tool result:\n" ++ "42")] := by
  constructor
  · exact (c6_prepare_messages [mkHumanMessage "hi"] "SYSTEM PROMPT").1
      (mkHumanMessage "hi") rfl rfl
  · exact (c6_prepare_messages [{ role := Role.tool, content := "42" }] "SYSTEM PROMPT").2.1
      { role := Role.tool, content := "42" } [] rfl rfl

theorem buildUserContext_days (uid : String) (today : Int) (p : Pref)
    (cF : Fetch (List Craving)) (dF : Fetch (List DiaryEntry)) :
    (buildUserContext uid today (Fetch.ok (some p)) cF dF).days_since_quit =
      some (today - p.quit_date) := by
  cases cF <;> cases dF <;> rfl

theorem buildUserContext_truthy (uid : String) (today : Int) (p : Pref)
    (cF : Fetch (List Craving)) (dF : Fetch (List DiaryEntry)) :
    (buildUserContext uid today (Fetch.ok (some p)) cF dF).truthy = true := by
  cases cF <;> cases dF <;> rfl

/-- C8: when the quit date lies in the future, the snapshot builder computes
days_since_quit = today - quit_date as a negative integer (date subtraction
is total, so nothing raises), stores it unclamped in the snapshot, and the
value is propagated as-is into the conversation context that the prompt
layer reads. -/
theorem c8_negative_days (uid m : String) (today : Int) (p : Pref)
    (cF : Fetch (List Craving)) (dF : Fetch (List DiaryEntry))
    (h : today < p.quit_date) :
    (buildUserContext uid today (Fetch.ok (some p)) cF dF).days_since_quit =
      some (today - p.quit_date) ∧
    today - p.quit_date < 0 ∧
    ((context_node (mkInitialState m (buildUserContext uid today (Fetch.ok (some p)) cF dF))).conversation_context.getD {}).days_since_quit =
      some (today - p.quit_date) := by
  refine ⟨buildUserContext_days uid today p cF dF, by omega, ?_⟩
  have hstate : (mkInitialState m (buildUserContext uid today (Fetch.ok (some p)) cF dF)).days_since_quit =
      some (today - p.quit_date) := by
    rw [mkInitialState, if_pos (buildUserContext_truthy uid today p cF dF)]
    exact buildUserContext_days uid today p cF dF
  simp [context_node, mergeScalar, hstate]

/-- C8 witness: today is day 0 and the quit date is day 5; the snapshot and
the enriched context both carry days_since_quit = -5. -/
theorem c8_negative_days_witness :
    (buildUserContext "u1" 0 (Fetch.ok (some { quit_date := 5, reason := none, cig_per_day := none, years_smoking := none, cig_price := none, language := none, goals := [] })) (Fetch.ok []) (Fetch.ok [])).days_since_quit =
      some ((0 : Int) - 5) ∧
    (0 : Int) - 5 < 0 ∧
    ((context_node (mkInitialState "hi" (buildUserContext "u1" 0 (Fetch.ok (some { quit_date := 5, reason := none, cig_per_day := none, years_smoking := none, cig_price := none, language := none, goals := [] })) (Fetch.ok []) (Fetch.ok [])))).conversation_context.getD {}).days_since_quit =
      some ((0 : Int) - 5) :=
  c8_negative_days "u1" "hi" 0
    { quit_date := 5, reason := none, cig_per_day := none, years_smoking := none, cig_price := none, language := none, goals := [] }
    (Fetch.ok []) (Fetch.ok []) (by norm_num)
